import Mathlib

/-!
Shallow embedding of the ICICI Breeze quote-fetching tool (src/app.py):
the request signer (canonical JSON body, UTC timestamp, SHA-256 checksum,
header assembly) and the quote client (response-envelope interpretation),
together with the rendering layer that normalizes the Success payload.

Machine words are modelled as Nat reduced mod 2^32 where overflow matters;
byte strings are List Nat (each element a byte value).
-/

/-- Truncate to a 32-bit word, as CPU arithmetic inside SHA-256 does. -/
def w32 (n : Nat) : Nat := n % 4294967296

/-- 32-bit right rotation. -/
def rotr (s w : Nat) : Nat := w32 ((w >>> s) ||| (w <<< (32 - s)))

/-- SHA-256 round constants (FIPS 180-4, section 4.2.2), written in decimal. -/
def sha256K : List Nat :=
  [1116352408, 1899447441, 3049323471, 3921009573, 961987163,
   1508970993, 2453635748, 2870763221, 3624381080, 310598401,
   607225278, 1426881987, 1925078388, 2162078206, 2614888103,
   3248222580, 3835390401, 4022224774, 264347078, 604807628,
   770255983, 1249150122, 1555081692, 1996064986, 2554220882,
   2821834349, 2952996808, 3210313671, 3336571891, 3584528711,
   113926993, 338241895, 666307205, 773529912, 1294757372,
   1396182291, 1695183700, 1986661051, 2177026350, 2456956037,
   2730485921, 2820302411, 3259730800, 3345764771, 3516065817,
   3600352804, 4094571909, 275423344, 430227734, 506948616,
   659060556, 883997877, 958139571, 1322822218, 1537002063,
   1747873779, 1955562222, 2024104815, 2227730452, 2361852424,
   2428436474, 2756734187, 3204031479, 3329325298]

/-- Byte i (little-endian position) of a Nat. -/
def byteAt (n i : Nat) : Nat := (n >>> (8 * i)) % 256

/-- SHA-256 message padding: append 0x80, zeros to 56 mod 64, then the
64-bit big-endian bit length (FIPS 180-4, section 5.1.1). -/
def padBytes (msg : List Nat) : List Nat :=
  let L := msg.length
  let k := (64 - ((L + 9) % 64)) % 64
  let bitLen := 8 * L
  msg ++ 128 :: List.replicate k 0 ++
    [byteAt bitLen 7, byteAt bitLen 6, byteAt bitLen 5, byteAt bitLen 4,
     byteAt bitLen 3, byteAt bitLen 2, byteAt bitLen 1, byteAt bitLen 0]

/-- Big-endian 32-bit words from a byte list. -/
def wordsOfBytes : List Nat → List Nat
  | b0 :: b1 :: b2 :: b3 :: rest =>
    (b0 * 16777216 + b1 * 65536 + b2 * 256 + b3) :: wordsOfBytes rest
  | _ => []

/-- The eight working variables / hash state of SHA-256. -/
structure Hash8 where
  ha : Nat
  hb : Nat
  hc : Nat
  hd : Nat
  he : Nat
  hf : Nat
  hg : Nat
  hh : Nat

/-- SHA-256 initial hash value (FIPS 180-4, section 5.3.3). -/
def initH : Hash8 :=
  ⟨1779033703,
   3144134277,
   1013904242,
   2773480762,
   1359893119,
   2600822924,
   528734635,
   1541459225⟩

def chFn (x y z : Nat) : Nat := (x &&& y) ^^^ ((x ^^^ 4294967295) &&& z)

def majFn (x y z : Nat) : Nat := (x &&& y) ^^^ (x &&& z) ^^^ (y &&& z)

def bsig0 (w : Nat) : Nat := rotr 2 w ^^^ rotr 13 w ^^^ rotr 22 w

def bsig1 (w : Nat) : Nat := rotr 6 w ^^^ rotr 11 w ^^^ rotr 25 w

def ssig0 (w : Nat) : Nat := rotr 7 w ^^^ rotr 18 w ^^^ (w >>> 3)

def ssig1 (w : Nat) : Nat := rotr 17 w ^^^ rotr 19 w ^^^ (w >>> 10)

/-- Extend the message schedule by one word (FIPS 180-4, section 6.2.2 step 1). -/
def schedStep (ws : List Nat) : List Nat :=
  ws ++ [w32 (ssig1 (ws.getD (ws.length - 2) 0) + ws.getD (ws.length - 7) 0 +
              ssig0 (ws.getD (ws.length - 15) 0) + ws.getD (ws.length - 16) 0)]

def buildSched : Nat → List Nat → List Nat
  | 0, ws => ws
  | n + 1, ws => buildSched n (schedStep ws)

/-- One SHA-256 compression round, consuming a (constant, schedule word) pair. -/
def roundStep (st : Hash8) (kw : Nat × Nat) : Hash8 :=
  let t1 := w32 (st.hh + bsig1 st.he + chFn st.he st.hf st.hg + kw.1 + kw.2)
  let t2 := w32 (bsig0 st.ha + majFn st.ha st.hb st.hc)
  ⟨w32 (t1 + t2), st.ha, st.hb, st.hc, w32 (st.hd + t1), st.he, st.hf, st.hg⟩

/-- Compress one 64-byte block into the running hash state. -/
def compress (st : Hash8) (block : List Nat) : Hash8 :=
  let ws := buildSched 48 (wordsOfBytes block)
  let r := (sha256K.zip ws).foldl roundStep st
  ⟨w32 (st.ha + r.ha), w32 (st.hb + r.hb), w32 (st.hc + r.hc), w32 (st.hd + r.hd),
   w32 (st.he + r.he), w32 (st.hf + r.hf), w32 (st.hg + r.hg), w32 (st.hh + r.hh)⟩

def chunks64Aux : Nat → List Nat → List (List Nat)
  | 0, _ => []
  | _, [] => []
  | fuel + 1, l => l.take 64 :: chunks64Aux fuel (l.drop 64)

/-- Split a byte list into 64-byte blocks (the input length is enough fuel). -/
def chunks64 (l : List Nat) : List (List Nat) := chunks64Aux l.length l

/-- Big-endian bytes of one 32-bit word. -/
def w2bytes (w : Nat) : List Nat := [(w >>> 24) % 256, (w >>> 16) % 256, (w >>> 8) % 256, w % 256]

def digestBytes (st : Hash8) : List Nat :=
  w2bytes st.ha ++ w2bytes st.hb ++ w2bytes st.hc ++ w2bytes st.hd ++
  w2bytes st.he ++ w2bytes st.hf ++ w2bytes st.hg ++ w2bytes st.hh

/-- SHA-256 of a byte string, as 32 digest bytes. Models hashlib.sha256(...).digest(). -/
def sha256Bytes (msg : List Nat) : List Nat :=
  digestBytes ((chunks64 (padBytes msg)).foldl compress initH)

/-- Lowercase hexadecimal digit, as Python hex formatting produces. -/
def hexChar (n : Nat) : Char := if n < 10 then Char.ofNat (48 + n) else Char.ofNat (87 + n)

def hexOfBytes (l : List Nat) : List Char :=
  (l.map (fun b => [hexChar (b / 16), hexChar (b % 16)])).flatten

/-- Models hashlib.sha256(msg).hexdigest(): lowercase hex of the 32 digest bytes. -/
def hexdigest (msg : List Nat) : String := String.mk (hexOfBytes (sha256Bytes msg))

/-- UTF-8 encoding of one Unicode scalar value. -/
def utf8Char (c : Char) : List Nat :=
  let n := c.toNat
  if n < 128 then [n]
  else if n < 2048 then [192 + n / 64, 128 + n % 64]
  else if n < 65536 then [224 + n / 4096, 128 + (n / 64) % 64, 128 + n % 64]
  else [240 + n / 262144, 128 + (n / 4096) % 64, 128 + (n / 64) % 64, 128 + n % 64]

/-- Models str.encode("utf-8"): the UTF-8 bytes of a string. -/
def utf8Encode (s : String) : List Nat := (s.data.map utf8Char).flatten

/-- src/app.py lines 45-48: data = timestamp + payload + secret_key;
sha256(data.encode("utf-8")).hexdigest(). -/
def generate_checksum (timestamp payload secret_key : String) : String :=
  let data := timestamp ++ payload ++ secret_key
  hexdigest (utf8Encode data)

/-! ### json.dumps model (Python default arguments, as called on line 66)

json.dumps with default arguments uses separators (", ", ": "), ensure_ascii
escaping, and insertion order of the dict keys. app.py serializes a dict whose
values are strings, so the model covers string-valued objects. -/

def jsonHex4 (n : Nat) : List Char :=
  [hexChar ((n >>> 12) % 16), hexChar ((n >>> 8) % 16), hexChar ((n >>> 4) % 16), hexChar (n % 16)]

/-- CPython json string escaping with ensure_ascii: plain for 0x20..0x7e
except quote and backslash, short escapes, and backslash-u elsewhere
(surrogate pairs above the BMP). -/
def jsonEscChar (c : Char) : List Char :=
  let n := c.toNat
  if c = '"' then ['\\', '"']
  else if c = '\\' then ['\\', '\\']
  else if n = 10 then ['\\', 'n']
  else if n = 9 then ['\\', 't']
  else if n = 13 then ['\\', 'r']
  else if n = 8 then ['\\', 'b']
  else if n = 12 then ['\\', 'f']
  else if n < 32 then '\\' :: 'u' :: jsonHex4 n
  else if n < 127 then [c]
  else if n < 65536 then '\\' :: 'u' :: jsonHex4 n
  else '\\' :: 'u' :: jsonHex4 (55296 + (n - 65536) / 1024) ++
       '\\' :: 'u' :: jsonHex4 (56320 + (n - 65536) % 1024)

/-- A JSON string literal as json.dumps renders it. -/
def pyJsonStr (s : String) : String :=
  String.mk ('"' :: (s.data.map jsonEscChar).flatten ++ ['"'])

/-- Join entries with the default item separator ", ". -/
def joinComma : List String → String
  | [] => ""
  | [x] => x
  | x :: xs => x ++ ", " ++ joinComma xs

/-- json.dumps of a string-valued dict with default separators (", ", ": "). -/
def json_dumps_strobj (pairs : List (String × String)) : String :=
  "\x7b" ++ joinComma (pairs.map (fun p => pyJsonStr p.1 ++ ": " ++ pyJsonStr p.2)) ++ "\x7d"

/-- src/app.py lines 62-66: payload_dict has exactly the two keys stock_code
and exchange_code in that insertion order; payload = json.dumps(payload_dict). -/
def payloadOf (symbol exchange : String) : String :=
  json_dumps_strobj [("stock_code", symbol), ("exchange_code", exchange)]

/-! ### Timestamp model (line 69): datetime.utcnow().isoformat()[:19] + ".000Z" -/

/-- A wall-clock reading as datetime.utcnow() yields it: naive UTC fields,
bounded by the datetime class invariants. -/
structure DateTimeUTC where
  year : Nat
  month : Nat
  day : Nat
  hour : Nat
  minute : Nat
  second : Nat
  microsecond : Nat
  hYear : year ≤ 9999
  hMonth : month ≤ 12
  hDay : day ≤ 31
  hHour : hour ≤ 23
  hMinute : minute ≤ 59
  hSecond : second ≤ 59
  hMicro : microsecond ≤ 999999

def digitChar (n : Nat) : Char := Char.ofNat (48 + n)

/-- Fixed-width decimal fields, as the %02d / %04d / %06d formatting used by
datetime.isoformat renders them on the datetime-invariant domain. -/
def pad2 (n : Nat) : List Char := [digitChar (n / 10 % 10), digitChar (n % 10)]

def pad4 (n : Nat) : List Char :=
  [digitChar (n / 1000 % 10), digitChar (n / 100 % 10), digitChar (n / 10 % 10), digitChar (n % 10)]

def pad6 (n : Nat) : List Char :=
  [digitChar (n / 100000 % 10), digitChar (n / 10000 % 10), digitChar (n / 1000 % 10),
   digitChar (n / 100 % 10), digitChar (n / 10 % 10), digitChar (n % 10)]

/-- The seconds-precision part YYYY-MM-DDTHH:MM:SS of datetime.isoformat(). -/
def dateTime19 (d : DateTimeUTC) : List Char :=
  pad4 d.year ++ '-' :: pad2 d.month ++ '-' :: pad2 d.day ++
  'T' :: pad2 d.hour ++ ':' :: pad2 d.minute ++ ':' :: pad2 d.second

/-- datetime.isoformat(): the fractional part .ffffff is present exactly when
microsecond is nonzero. -/
def isoformatChars (d : DateTimeUTC) : List Char :=
  dateTime19 d ++ (if d.microsecond = 0 then [] else '.' :: pad6 d.microsecond)

/-- src/app.py line 69: datetime.utcnow().isoformat()[:19] + ".000Z". -/
def timestampOf (d : DateTimeUTC) : String :=
  String.mk ((isoformatChars d).take 19 ++ ['.', '0', '0', '0', 'Z'])

/-- The spec's reading of the timestamp: the UTC ISO-8601 seconds-precision
rendering with the literal suffix .000Z. -/
def specTimestamp (d : DateTimeUTC) : String :=
  String.mk (dateTime19 d) ++ ".000Z"

/-! ### JSON values and the Python operations app.py applies to them -/

/-- Parsed JSON values as Python represents them (numbers as rationals:
Python compares int and float by value, which Rat equality mirrors). -/
inductive JVal where
  | null : JVal
  | bool (b : Bool) : JVal
  | num (q : Rat) : JVal
  | str (s : String) : JVal
  | arr (elems : List JVal) : JVal
  | obj (fields : List (String × JVal)) : JVal

/-- dict lookup returning None when absent: result.get(k). -/
def getOpt (fields : List (String × JVal)) (k : String) : Option JVal :=
  (fields.find? (fun p => p.1 == k)).map (fun p => p.2)

/-- dict lookup with a default: result.get(k, dflt). -/
def getOptD (fields : List (String × JVal)) (k : String) (dflt : JVal) : JVal :=
  (getOpt fields k).getD dflt

/-- Python truthiness of a JSON value ("if not market_data", line 101). -/
def pyFalsy : JVal → Bool
  | .null => true
  | .bool b => !b
  | .num q => q == 0
  | .str s => s == ""
  | .arr l => l.isEmpty
  | .obj l => l.isEmpty

/-- Python truthiness of result.get("Success"): None (the key is absent) and
falsy values (empty list, empty object, ...) both fail the check on line 101. -/
def optFalsy (o : Option JVal) : Bool :=
  match o with
  | none => true
  | some v => pyFalsy v

/-- Line 93: status in [200, "200"] under Python ==. Only the int/float 200
and the string "200" count; None, booleans, containers never do. -/
def statusIn200 : Option JVal → Bool
  | some (.num q) => q == 200
  | some (.str s) => s == "200"
  | _ => false


/-! ### The quote client fetch_market_data_icici (src/app.py lines 50-120)

The HTTP library is the environment: a TransportResult is what requests.get
and response.json() deliver for the single request the function issues.
Side effects (st.error / st.json) are recorded as tagged messages, and every
issued HTTP request is recorded with its headers and body. -/

/-- What the environment answers to the one requests.get call:
either a raised requests.exceptions.RequestException (timeout, connection
failure, ...) or a response with its status code, text, and the result of
response.json() (none models a JSON decode failure). -/
inductive TransportResult where
  | requestException (msg : String) : TransportResult
  | response (statusCode : Nat) (text : String) (json : Option JVal) : TransportResult

/-- A Python exception escaping fetch_market_data_icici uncaught. -/
inductive PyExn where
  | attributeError : PyExn

/-- Either the Python function returns a value, or an exception escapes it. -/
inductive FetchResult where
  | returns (v : Option JVal) : FetchResult
  | raises (e : PyExn) : FetchResult

/-- The st.error / st.json side effects of fetch_market_data_icici, kept as
tagged data (their f-string rendering is presentation). -/
inductive Msg where
  | sessionTokenRequired : Msg
  | fetchFailed (msg : String) : Msg
  | httpError (statusCode : Nat) (text : String) : Msg
  | jsonParseFailed (text : String) : Msg
  | apiError (errMsg : JVal) : Msg
  | rawJson (v : JVal) : Msg
  | noMarketData : Msg

structure FetchOutput where
  result : FetchResult
  msgs : List Msg
  requests : List (List (String × String) × String)

/-- src/app.py lines 75-82: the headers dict, in insertion order. -/
def headersOf (timestamp checksum api_key session_token : String) : List (String × String) :=
  [("Content-Type", "application/json"),
   ("X-Checksum", "token " ++ checksum),
   ("X-Timestamp", timestamp),
   ("X-AppKey", api_key),
   ("X-SessionToken", session_token),
   ("User-Agent", "Mozilla/5.0")]

/-- src/app.py lines 50-120. The empty session token models Python falsy
session_token (empty string or None). raise_for_status raises HTTPError
exactly for 4xx/5xx status codes; result.get("Status") raises
AttributeError when the parsed JSON is not an object, and no except clause
catches AttributeError. -/
def fetch_market_data_icici (symbol exchange session_token api_key api_secret : String)
    (now : DateTimeUTC) (transport : TransportResult) : FetchOutput :=
  if session_token = "" then
    ⟨.returns none, [.sessionTokenRequired], []⟩
  else
    let payload := payloadOf symbol exchange
    let timestamp := timestampOf now
    let checksum := generate_checksum timestamp payload api_secret
    let headers := headersOf timestamp checksum api_key session_token
    let sent := [(headers, payload)]
    match transport with
    | .requestException m => ⟨.returns none, [.fetchFailed m], sent⟩
    | .response code text jsonBody =>
      if 400 ≤ code ∧ code < 600 then
        ⟨.returns none, [.httpError code text], sent⟩
      else
        match jsonBody with
        | none => ⟨.returns none, [.jsonParseFailed text], sent⟩
        | some result =>
          match result with
          | .obj fields =>
            if statusIn200 (getOpt fields "Status") then
              match getOpt fields "Success" with
              | none => ⟨.returns none, [.noMarketData], sent⟩
              | some md =>
                if pyFalsy md then ⟨.returns none, [.noMarketData], sent⟩
                else ⟨.returns (some md), [], sent⟩
            else
              ⟨.returns none,
               [.apiError (getOptD fields "Error" (.str "Unknown API error")), .rawJson result],
               sent⟩
          | _ => ⟨.raises .attributeError, [], sent⟩

/-! ### Rendering layer (src/app.py lines 183-210)

Each data_type branch picks market_data[0] when market_data is a non-empty
list and market_data itself otherwise, then reads fields with dict.get. -/

/-- The record the rendering reads fields from: market_data[0] for a
non-empty list, market_data itself otherwise (lines 186-201). -/
def selectRecord : JVal → JVal
  | .arr (x :: _) => x
  | v => v

/-- v.get(k, dflt): AttributeError when v is not a dict. -/
def pyGetAttr (v : JVal) (k : String) (dflt : JVal) : Except PyExn JVal :=
  match v with
  | .obj fields => .ok (getOptD fields k dflt)
  | _ => .error .attributeError

/-- Lines 186-190: the LTP branch, default the string N/A. -/
def ltpShown (market_data : JVal) : Except PyExn JVal :=
  pyGetAttr (selectRecord market_data) "ltp" (.str "N/A")

/-- Lines 192-195: the Volume branch, default the string N/A. -/
def volumeShown (market_data : JVal) : Except PyExn JVal :=
  pyGetAttr (selectRecord market_data) "total_quantity_traded" (.str "N/A")

/-- Lines 198-209: the OHLC branch; dict.get with one argument defaults to
None, modelled as JVal.null. -/
def ohlcShown (market_data : JVal) : Except PyExn (List (String × JVal)) := do
  let d := selectRecord market_data
  let o ← pyGetAttr d "open" .null
  let h ← pyGetAttr d "high" .null
  let l ← pyGetAttr d "low" .null
  let c ← pyGetAttr d "close" .null
  let p ← pyGetAttr d "previous_close" .null
  return [("Open", o), ("High", h), ("Low", l), ("Close", c), ("Previous Close", p)]

/-- The clock reading of the spec's timestamp example, 2024-03-05T10:07:22.843Z. -/
def exampleClock : DateTimeUTC :=
  ⟨2024, 3, 5, 10, 7, 22, 843000,
   by decide, by decide, by decide, by decide, by decide, by decide, by decide⟩

/-! ## Supporting lemmas -/

set_option maxRecDepth 40000 in
/-- The SHA-256 implementation matches the FIPS 180-4 test vector for the
empty message. -/
theorem sha256_empty_test_vector :
    hexdigest [] = "e3b0c44298fc1c149afbf4c8996fb92427ae41e4649b934ca495991b7852b855" := by
  decide

set_option maxRecDepth 40000 in
/-- The SHA-256 implementation matches the FIPS 180-4 test vector for "abc". -/
theorem sha256_abc_test_vector :
    hexdigest (utf8Encode "abc") =
      "ba7816bf8f01cfea414140de5dae2223b00361a396177a9cb410ff61f20015ad" := by
  decide

theorem utf8Encode_append (a b : String) :
    utf8Encode (a ++ b) = utf8Encode a ++ utf8Encode b := by
  have hd : (a ++ b).data = a.data ++ b.data := String.data_append a b
  simp [utf8Encode, hd]

theorem length_digestBytes (st : Hash8) : (digestBytes st).length = 32 := by
  simp [digestBytes, w2bytes]

theorem length_sha256Bytes (msg : List Nat) : (sha256Bytes msg).length = 32 := by
  unfold sha256Bytes
  exact length_digestBytes _

theorem length_hexOfBytes (l : List Nat) : (hexOfBytes l).length = 2 * l.length := by
  induction l with
  | nil => rfl
  | cons b t ih =>
    simp [hexOfBytes] at ih ⊢
    omega

theorem length_dateTime19 (d : DateTimeUTC) : (dateTime19 d).length = 19 := by
  simp [dateTime19, pad4, pad2]


/-! ## Claim theorems -/

/-- C2: for every timestamp, body and secret, generate_checksum equals the
lowercase-hex SHA-256 digest of the UTF-8 bytes of the plain concatenation
timestamp + body + secret, with no delimiter between the parts (the byte
string hashed is exactly the three UTF-8 encodings appended); the result is
a 64-character hex string. The function is a pure Lean function, hence
deterministic. -/
theorem generate_checksum_is_sha256_of_concat (ts body secret : String) :
    generate_checksum ts body secret =
      hexdigest (utf8Encode ts ++ utf8Encode body ++ utf8Encode secret) ∧
    (generate_checksum ts body secret).length = 64 := by
  constructor
  · show hexdigest (utf8Encode (ts ++ body ++ secret)) = _
    rw [utf8Encode_append, utf8Encode_append]
  · unfold generate_checksum hexdigest
    rw [String.length_mk, length_hexOfBytes, length_sha256Bytes]

/-- C4: for every wall-clock reading, the timestamp placed in the request is
the seconds-precision UTC ISO-8601 rendering followed by the literal
suffix .000Z; the fractional seconds are truncated, never rounded, as the
example clock 2024-03-05T10:07:22.843Z formatting to
2024-03-05T10:07:22.000Z shows. -/
theorem timestamp_truncates_to_000Z :
    (∀ d : DateTimeUTC, timestampOf d = specTimestamp d) ∧
    timestampOf exampleClock = "2024-03-05T10:07:22.000Z" := by
  constructor
  · intro d
    have h19 : (isoformatChars d).take 19 = dateTime19 d := by
      unfold isoformatChars
      exact List.take_left' (length_dateTime19 d)
    unfold timestampOf specTimestamp
    rw [h19]
    apply String.ext
    simp [String.data_append]
  · decide

/-- C1 counterexample: serializing the RELIANCE/NSE query yields the
two-key json.dumps default rendering, with a space after each colon and
comma, and not the claimed compact five-key string (which would also have
to contain product_type, right and strike_price). -/
theorem payload_reliance_counterexample :
    payloadOf "RELIANCE" "NSE" =
      "\x7b\"stock_code\": \"RELIANCE\", \"exchange_code\": \"NSE\"\x7d" ∧
    payloadOf "RELIANCE" "NSE" ≠
      "\x7b\"stock_code\":\"RELIANCE\",\"exchange_code\":\"NSE\",\"product_type\":\"cash\",\"right\":\"Others\",\"strike_price\":\"0\"\x7d" := by
  constructor
  · decide
  · decide

/-- C1 amended: for every symbol and exchange, the request body is the
json.dumps rendering of the dict with exactly the two keys stock_code and
exchange_code in that order, using the Python default separators ", " and
": " (a space follows each colon and comma); product_type, right and
strike_price are not part of the body. -/
theorem payload_is_two_key_default_dumps (symbol exchange : String) :
    payloadOf symbol exchange =
      "\x7b" ++ pyJsonStr "stock_code" ++ ": " ++ pyJsonStr symbol ++ ", " ++
      pyJsonStr "exchange_code" ++ ": " ++ pyJsonStr exchange ++ "\x7d" := by
  show "\x7b" ++ joinComma [pyJsonStr "stock_code" ++ ": " ++ pyJsonStr symbol,
      pyJsonStr "exchange_code" ++ ": " ++ pyJsonStr exchange] ++ "\x7d" = _
  simp only [joinComma, String.append_assoc]

/-- C3 counterexample: the assembled header set also contains the
User-Agent header, whose key is not among the five the claim lists, so the
header set is not exactly those five. -/
theorem headers_user_agent_counterexample :
    ("User-Agent", "Mozilla/5.0") ∈ headersOf "ts" "ck" "key" "tok" ∧
    "User-Agent" ∉ ["Content-Type", "X-Checksum", "X-Timestamp", "X-AppKey", "X-SessionToken"] := by
  constructor
  · decide
  · decide

/-- C3 amended: for every signed request built with a non-empty session
token, exactly one HTTP request is issued, and its headers are exactly
Content-Type: application/json, X-Checksum: the literal "token " followed by
the checksum (one space, lowercase token), X-Timestamp: the formatted
timestamp, X-AppKey, X-SessionToken, plus User-Agent: Mozilla/5.0. -/
theorem fetch_sends_exact_headers (symbol exchange session_token api_key api_secret : String)
    (now : DateTimeUTC) (t : TransportResult) (h : session_token ≠ "") :
    (fetch_market_data_icici symbol exchange session_token api_key api_secret now t).requests =
      [(headersOf (timestampOf now)
          (generate_checksum (timestampOf now) (payloadOf symbol exchange) api_secret)
          api_key session_token,
        payloadOf symbol exchange)] ∧
    headersOf (timestampOf now)
        (generate_checksum (timestampOf now) (payloadOf symbol exchange) api_secret)
        api_key session_token =
      [("Content-Type", "application/json"),
       ("X-Checksum", "token " ++
          generate_checksum (timestampOf now) (payloadOf symbol exchange) api_secret),
       ("X-Timestamp", timestampOf now),
       ("X-AppKey", api_key),
       ("X-SessionToken", session_token),
       ("User-Agent", "Mozilla/5.0")] := by
  refine ⟨?_, rfl⟩
  unfold fetch_market_data_icici
  rw [if_neg h]
  cases t with
  | requestException m => rfl
  | response code text jsonBody =>
    dsimp only
    split
    · rfl
    · cases jsonBody with
      | none => rfl
      | some v =>
        cases v
        case obj fields =>
          dsimp only
          split
          · split <;> first | rfl | split <;> rfl
          · rfl
        all_goals rfl

/-- C3 witness: the amended theorem applied at concrete inputs with a
non-empty session token. -/
theorem fetch_sends_exact_headers_witness :
    ("mytoken" : String) ≠ "" ∧
    ((fetch_market_data_icici "RELIANCE" "NSE" "mytoken" "key" "secret" exampleClock
        (TransportResult.requestException "timeout")).requests =
      [(headersOf (timestampOf exampleClock)
          (generate_checksum (timestampOf exampleClock) (payloadOf "RELIANCE" "NSE") "secret")
          "key" "mytoken",
        payloadOf "RELIANCE" "NSE")] ∧
    headersOf (timestampOf exampleClock)
        (generate_checksum (timestampOf exampleClock) (payloadOf "RELIANCE" "NSE") "secret")
        "key" "mytoken" =
      [("Content-Type", "application/json"),
       ("X-Checksum", "token " ++
          generate_checksum (timestampOf exampleClock) (payloadOf "RELIANCE" "NSE") "secret"),
       ("X-Timestamp", timestampOf exampleClock),
       ("X-AppKey", "key"),
       ("X-SessionToken", "mytoken"),
       ("User-Agent", "Mozilla/5.0")]) :=
  ⟨by decide,
   fetch_sends_exact_headers "RELIANCE" "NSE" "mytoken" "key" "secret" exampleClock
     (TransportResult.requestException "timeout") (by decide)⟩

/-- C5: with an empty (or absent, which Python treats identically) session
token, the function short-circuits: it returns None after reporting that the
session token is required, and issues zero HTTP requests, whatever the
transport would have answered. -/
theorem fetch_missing_token (symbol exchange session_token api_key api_secret : String)
    (now : DateTimeUTC) (t : TransportResult) (h : session_token = "") :
    fetch_market_data_icici symbol exchange session_token api_key api_secret now t =
      ⟨FetchResult.returns none, [Msg.sessionTokenRequired], []⟩ := by
  subst h
  rfl

/-- C5 witness: concrete instance with an empty session token and a
transport stub; no request is recorded. -/
theorem fetch_missing_token_witness :
    ("" : String) = "" ∧
    fetch_market_data_icici "RELIANCE" "NSE" "" "key" "secret" exampleClock
        (TransportResult.requestException "timeout") =
      ⟨FetchResult.returns none, [Msg.sessionTokenRequired], []⟩ :=
  ⟨rfl, fetch_missing_token "RELIANCE" "NSE" "" "key" "secret" exampleClock
      (TransportResult.requestException "timeout") rfl⟩

/-- C6: for every received-and-parsed JSON object envelope whose Status field
is missing or differs from both the number 200 and the string "200", the
function fails: it returns None (never a payload), raises nothing, and
reports an application error carrying the envelope Error value, defaulting
to the "Unknown API error" message when Error is absent (getOptD supplies
the default exactly in that case). -/
theorem fetch_api_error_envelope (symbol exchange session_token api_key api_secret : String)
    (now : DateTimeUTC) (code : Nat) (text : String) (fields : List (String × JVal))
    (hTok : session_token ≠ "") (hCode : ¬(400 ≤ code ∧ code < 600))
    (hStatus : statusIn200 (getOpt fields "Status") = false) :
    (fetch_market_data_icici symbol exchange session_token api_key api_secret now
        (TransportResult.response code text (some (JVal.obj fields)))).result =
      FetchResult.returns none ∧
    (fetch_market_data_icici symbol exchange session_token api_key api_secret now
        (TransportResult.response code text (some (JVal.obj fields)))).msgs =
      [Msg.apiError (getOptD fields "Error" (JVal.str "Unknown API error")),
       Msg.rawJson (JVal.obj fields)] := by
  unfold fetch_market_data_icici
  rw [if_neg hTok]
  dsimp only
  rw [if_neg hCode]
  rw [if_neg (by simp [hStatus])]
  exact ⟨rfl, rfl⟩

/-- C6 witness: the spec's own example envelope with Status 500 and
Error "Invalid checksum". -/
theorem fetch_api_error_envelope_witness :
    ("tok" : String) ≠ "" ∧
    ¬(400 ≤ 200 ∧ 200 < 600) ∧
    statusIn200 (getOpt [("Status", JVal.num 500), ("Error", JVal.str "Invalid checksum")]
        "Status") = false ∧
    ((fetch_market_data_icici "RELIANCE" "NSE" "tok" "key" "secret" exampleClock
        (TransportResult.response 200 ""
          (some (JVal.obj [("Status", JVal.num 500), ("Error", JVal.str "Invalid checksum")])))).result =
      FetchResult.returns none ∧
    (fetch_market_data_icici "RELIANCE" "NSE" "tok" "key" "secret" exampleClock
        (TransportResult.response 200 ""
          (some (JVal.obj [("Status", JVal.num 500), ("Error", JVal.str "Invalid checksum")])))).msgs =
      [Msg.apiError (getOptD [("Status", JVal.num 500), ("Error", JVal.str "Invalid checksum")]
          "Error" (JVal.str "Unknown API error")),
       Msg.rawJson (JVal.obj [("Status", JVal.num 500), ("Error", JVal.str "Invalid checksum")])]) :=
  ⟨by decide, by decide, by decide,
   fetch_api_error_envelope "RELIANCE" "NSE" "tok" "key" "secret" exampleClock 200 ""
     [("Status", JVal.num 500), ("Error", JVal.str "Invalid checksum")]
     (by decide) (by decide) (by decide)⟩

/-- C8: for every received-and-parsed JSON object envelope whose Status
counts as 200 (the number 200 or the string "200") but whose Success field
is absent or Python-falsy (in particular an empty list or empty object), the
function produces no market data: it returns None and reports the
no-market-data message, raising nothing. -/
theorem fetch_empty_success_payload (symbol exchange session_token api_key api_secret : String)
    (now : DateTimeUTC) (code : Nat) (text : String) (fields : List (String × JVal))
    (hTok : session_token ≠ "") (hCode : ¬(400 ≤ code ∧ code < 600))
    (hStatus : statusIn200 (getOpt fields "Status") = true)
    (hSucc : optFalsy (getOpt fields "Success") = true) :
    (fetch_market_data_icici symbol exchange session_token api_key api_secret now
        (TransportResult.response code text (some (JVal.obj fields)))).result =
      FetchResult.returns none ∧
    (fetch_market_data_icici symbol exchange session_token api_key api_secret now
        (TransportResult.response code text (some (JVal.obj fields)))).msgs =
      [Msg.noMarketData] := by
  unfold fetch_market_data_icici
  rw [if_neg hTok]
  dsimp only
  rw [if_neg hCode]
  rw [if_pos (by simp [hStatus])]
  cases hmd : getOpt fields "Success" with
  | none => exact ⟨rfl, rfl⟩
  | some md =>
    have hf : pyFalsy md = true := by
      rw [hmd] at hSucc
      simpa [optFalsy] using hSucc
    dsimp only
    rw [if_pos hf]
    exact ⟨rfl, rfl⟩

/-- C8 witness: a Status "200" envelope whose Success is the empty list. -/
theorem fetch_empty_success_payload_witness :
    ("tok" : String) ≠ "" ∧
    ¬(400 ≤ 200 ∧ 200 < 600) ∧
    statusIn200 (getOpt [("Status", JVal.str "200"), ("Success", JVal.arr [])] "Status") = true ∧
    optFalsy (getOpt [("Status", JVal.str "200"), ("Success", JVal.arr [])] "Success") = true ∧
    ((fetch_market_data_icici "RELIANCE" "NSE" "tok" "key" "secret" exampleClock
        (TransportResult.response 200 ""
          (some (JVal.obj [("Status", JVal.str "200"), ("Success", JVal.arr [])])))).result =
      FetchResult.returns none ∧
    (fetch_market_data_icici "RELIANCE" "NSE" "tok" "key" "secret" exampleClock
        (TransportResult.response 200 ""
          (some (JVal.obj [("Status", JVal.str "200"), ("Success", JVal.arr [])])))).msgs =
      [Msg.noMarketData]) :=
  ⟨by decide, by decide, by decide, by decide,
   fetch_empty_success_payload "RELIANCE" "NSE" "tok" "key" "secret" exampleClock 200 ""
     [("Status", JVal.str "200"), ("Success", JVal.arr [])]
     (by decide) (by decide) (by decide) (by decide)⟩

/-- C7 counterexample: the per-field default is not the sentinel
"not available": the LTP branch defaults a missing ltp to the string N/A,
and the OHLC branch defaults missing fields to None (null), as the empty
record shows. -/
theorem sentinel_counterexample :
    ltpShown (JVal.obj []) = Except.ok (JVal.str "N/A") ∧
    JVal.str "N/A" ≠ JVal.str "not available" ∧
    ohlcShown (JVal.obj []) = Except.ok
      [("Open", JVal.null), ("High", JVal.null), ("Low", JVal.null),
       ("Close", JVal.null), ("Previous Close", JVal.null)] := by
  refine ⟨rfl, ?_, rfl⟩
  intro h
  injection h with h2
  exact absurd h2 (by decide)

/-- C7 amended: the normalization happens per displayed field in the
rendering layer, not inside the fetch function; a single-element list whose
element is an object is unwrapped to that object and a bare object is used
as-is, both yielding the same values; each individually missing field
defaults without failing the record, to the string N/A for ltp and
total_quantity_traded and to None (null) for open, high, low, close and
previous_close. -/
theorem normalization_per_field :
    (∀ fields : List (String × JVal),
      ltpShown (JVal.arr [JVal.obj fields]) = ltpShown (JVal.obj fields) ∧
      volumeShown (JVal.arr [JVal.obj fields]) = volumeShown (JVal.obj fields) ∧
      ohlcShown (JVal.arr [JVal.obj fields]) = ohlcShown (JVal.obj fields)) ∧
    (∀ fields : List (String × JVal),
      ltpShown (JVal.obj fields) = Except.ok (getOptD fields "ltp" (JVal.str "N/A")) ∧
      volumeShown (JVal.obj fields) =
        Except.ok (getOptD fields "total_quantity_traded" (JVal.str "N/A")) ∧
      ohlcShown (JVal.obj fields) = Except.ok
        [("Open", getOptD fields "open" JVal.null),
         ("High", getOptD fields "high" JVal.null),
         ("Low", getOptD fields "low" JVal.null),
         ("Close", getOptD fields "close" JVal.null),
         ("Previous Close", getOptD fields "previous_close" JVal.null)]) := by
  constructor
  · intro fields
    exact ⟨rfl, rfl, rfl⟩
  · intro fields
    exact ⟨rfl, rfl, rfl⟩

/-- C10: when the Success payload is a list with more than one element, every
rendering branch reads only the first element: the displayed values for a
list x :: rest equal those for the single-element list [x], so the remaining
elements are silently ignored. -/
theorem list_payload_uses_first_element (x : JVal) (rest : List JVal) :
    ltpShown (JVal.arr (x :: rest)) = ltpShown (JVal.arr [x]) ∧
    volumeShown (JVal.arr (x :: rest)) = volumeShown (JVal.arr [x]) ∧
    ohlcShown (JVal.arr (x :: rest)) = ohlcShown (JVal.arr [x]) := by
  exact ⟨rfl, rfl, rfl⟩

/-- C9 counterexample: a 200 response whose body is valid JSON but not an
object (here the empty list) makes result.get("Status") raise an
AttributeError that no except clause catches, so an exception does propagate
out of the operation. -/
theorem nonobject_json_raises :
    (fetch_market_data_icici "RELIANCE" "NSE" "tok" "key" "secret" exampleClock
        (TransportResult.response 200 "[]" (some (JVal.arr [])))).result =
      FetchResult.raises PyExn.attributeError := by
  rfl

/-- C9 amended: with a non-empty session token, each of the enumerated
outcomes (transport exception, 4xx/5xx status, undecodable JSON body, and
any JSON object envelope, hence application errors and empty payloads) is
caught and returned as a typed result; an exception escapes uncaught exactly
when the response status passes raise_for_status and the body parses to a
JSON value that is not an object. -/
theorem fetch_raises_iff_nonobject_json
    (symbol exchange session_token api_key api_secret : String) (now : DateTimeUTC)
    (t : TransportResult) (hTok : session_token ≠ "") :
    (fetch_market_data_icici symbol exchange session_token api_key api_secret now t).result =
        FetchResult.raises PyExn.attributeError ↔
      ∃ code text v, t = TransportResult.response code text (some v) ∧
        ¬(400 ≤ code ∧ code < 600) ∧ ∀ fs, v ≠ JVal.obj fs := by
  unfold fetch_market_data_icici
  rw [if_neg hTok]
  cases t with
  | requestException m =>
    simp only []
    constructor
    · intro h
      exact absurd h (by simp)
    · rintro ⟨code, text, v, heq, -, -⟩
      exact absurd heq (by simp)
  | response code text jsonBody =>
    dsimp only
    by_cases hc : 400 ≤ code ∧ code < 600
    · rw [if_pos hc]
      constructor
      · intro h
        exact absurd h (by simp)
      · rintro ⟨code2, text2, v, heq, hc2, -⟩
        obtain ⟨h1, h2, h3⟩ := TransportResult.response.inj heq
        exact absurd hc (h1 ▸ hc2)
    · rw [if_neg hc]
      cases jsonBody with
      | none =>
        constructor
        · intro h
          exact absurd h (by simp)
        · rintro ⟨code2, text2, v, heq, -, -⟩
          obtain ⟨-, -, h3⟩ := TransportResult.response.inj heq
          exact absurd h3 (by simp)
      | some v =>
        cases v with
        | obj fields =>
          constructor
          · intro h
            dsimp only at h
            split at h
            · split at h
              · exact absurd h (by simp)
              · split at h
                · exact absurd h (by simp)
                · exact absurd h (by simp)
            · exact absurd h (by simp)
          · rintro ⟨code2, text2, v2, heq, -, hno⟩
            obtain ⟨-, -, h3⟩ := TransportResult.response.inj heq
            obtain rfl : v2 = JVal.obj fields := by
              injection h3 with h4
              exact h4.symm
            exact absurd rfl (hno fields)
        | null =>
          constructor
          · intro h
            exact ⟨code, text, JVal.null, rfl, hc, by intro fs hne; cases hne⟩
          · intro h
            rfl
        | bool b =>
          constructor
          · intro h
            exact ⟨code, text, JVal.bool b, rfl, hc, by intro fs hne; cases hne⟩
          · intro h
            rfl
        | num q =>
          constructor
          · intro h
            exact ⟨code, text, JVal.num q, rfl, hc, by intro fs hne; cases hne⟩
          · intro h
            rfl
        | str s =>
          constructor
          · intro h
            exact ⟨code, text, JVal.str s, rfl, hc, by intro fs hne; cases hne⟩
          · intro h
            rfl
        | arr l =>
          constructor
          · intro h
            exact ⟨code, text, JVal.arr l, rfl, hc, by intro fs hne; cases hne⟩
          · intro h
            rfl

/-- C9 witness: the amended theorem applied at a concrete non-object JSON
response (the number 5 as body), where the exception does escape. -/
theorem fetch_raises_iff_nonobject_json_witness :
    ("tok2" : String) ≠ "" ∧
    ((fetch_market_data_icici "TCS" "BSE" "tok2" "key" "secret" exampleClock
        (TransportResult.response 201 "5" (some (JVal.num 5)))).result =
        FetchResult.raises PyExn.attributeError ↔
      ∃ code text v,
        TransportResult.response 201 "5" (some (JVal.num 5)) =
          TransportResult.response code text (some v) ∧
        ¬(400 ≤ code ∧ code < 600) ∧ ∀ fs, v ≠ JVal.obj fs) :=
  ⟨by decide,
   fetch_raises_iff_nonobject_json "TCS" "BSE" "tok2" "key" "secret" exampleClock
     (TransportResult.response 201 "5" (some (JVal.num 5))) (by decide)⟩
